import Mathlib

/-!
Shallow embedding of the `shared_mem_random` tool (NikolasK-source/shared_mem_random).

The program fills a shared memory region with masked pseudorandom values on a
fixed interval, optionally guarded by a named semaphore.  The embedding models:

* the templated fill routine `random_data<T>` of the current variant
  (`src/unnamed/part_000`), including its semaphore-guard prologue and epilogue;
* the configuration-derived element count and the data-error exit path of `main`;
* the main scheduling loop of the current variant (`handle_counter`,
  `handle_sleep`, the `while (!terminate)` loop);
* the main loop of the historical variant (`src/src/main.cpp`), which differs in
  the counter comparison (`>` instead of `>=`).

Machine integers (`std::size_t`, `uint8_t` … `uint64_t`) are modelled as `Nat`
with explicit `% 2 ^ (8 * w)` truncation where the C++ code performs a narrowing
cast.  The pseudorandom engine is modelled as an oracle `rng : Nat → Nat`; the
uniform distribution over `T` is the truncation of the drawn value to the
element width.  Timing (`sigwait`, `nanosleep`, the interval timer) has no
effect on any modelled state and is represented only by the predicate
`timer_wait` stating whether a tick blocks on the timer.
-/

/-- `static constexpr std::size_t MAX_SEM_ERROR = 1000;` (part_000, line 21). -/
def MAX_SEM_ERROR : Nat := 1000

/-- `static constexpr std::size_t SEM_ERROR_INC = 100;` (part_000, line 22). -/
def SEM_ERROR_INC : Nat := 100

/-- `EX_DATAERR` from `<sysexits.h>`: exit code for "no elements to work on". -/
def EX_DATAERR : Nat := 65

/-- The process-global mutable state touched by the semaphore guard:
`sem_error_counter` (part_000, line 23) and the `terminate` flag
(part_000, line 25). -/
structure GuardState where
  err : Nat
  term : Bool
  deriving Repr, DecidableEq

/-- Semaphore-guard prologue of `random_data` (part_000, lines 51-67).

Arguments mirror the C++ control flow: `hasSem` is whether a semaphore was
configured (`if (semaphore)`), `maxZero` is whether `semaphore_max_time` is
`{0, 0}` (blocking `wait()` with no timeout), and `acqRes` is the outcome of the
bounded `wait(semaphore_max_time)` call for this tick.  Returns the
`is_acquired` status of the semaphore together with the updated global state:

* blocking wait: always acquires, state unchanged;
* bounded wait success: acquires, `if (sem_error_counter) --sem_error_counter;`
  (`Nat` subtraction gives the floor at 0);
* bounded wait timeout: does not acquire, `sem_error_counter += SEM_ERROR_INC;`
  and `terminate = true` when the counter reaches `MAX_SEM_ERROR`. -/
def guardEnter (hasSem maxZero acqRes : Bool) (s : GuardState) : Bool × GuardState :=
  if hasSem then
    if maxZero then (true, s)
    else if acqRes then (true, { s with err := s.err - 1 })
    else
      let c := s.err + SEM_ERROR_INC
      (false, { err := c, term := s.term || decide (MAX_SEM_ERROR ≤ c) })
  else (false, s)

/-- The values stored by the fill loop of `random_data<T>` (part_000, lines
69-71): element `i` is `dist(re) & static_cast<T>(bitmask)`, where `T` is the
`w`-byte unsigned type.  `dist(re)` draws uniformly over `[0, 2^(8w) - 1]`,
modelled as `rng i % 2 ^ (8 * w)`; the narrowing cast of the 64-bit `bitmask`
is `bitmask % 2 ^ (8 * w)`. -/
def randomDataValues (w elements bitmask : Nat) (rng : Nat → Nat) : List Nat :=
  (List.range elements).map (fun i => rng i % 2 ^ (8 * w) &&& bitmask % 2 ^ (8 * w))

/-- Result of one call of `random_data<T>` (part_000, lines 42-74): the list of
values written, the `is_acquired` status after the prologue, whether the
epilogue posted the semaphore, and the updated global state. -/
structure FillResult where
  values : List Nat
  acquired : Bool
  posted : Bool
  state : GuardState
  deriving Repr, DecidableEq

/-- `random_data<T>` (part_000, lines 42-74): semaphore-guard prologue, then the
unconditional fill loop, then `if (semaphore && semaphore->is_acquired())
semaphore->post();`. -/
def random_data (w elements bitmask : Nat) (rng : Nat → Nat)
    (hasSem maxZero acqRes : Bool) (s : GuardState) : FillResult :=
  let e := guardEnter hasSem maxZero acqRes s
  { values := randomDataValues w elements bitmask rng
    acquired := e.1
    posted := hasSem && e.1
    state := e.2 }

/-- `SIZE = OFFSET > shm->get_size() ? 0 : (shm->get_size() - OFFSET);`
(part_000, line 249). -/
def effectiveSize (shmSize offset : Nat) : Nat :=
  if offset > shmSize then 0 else shmSize - offset

/-- Element count computed by `main` (part_000, lines 259-260):
`SIZE / alignment`, then `std::min` with the `--elements` argument if given. -/
def shm_elements (shmSize offset alignment : Nat) (maxElems : Option Nat) : Nat :=
  let base := effectiveSize shmSize offset / alignment
  match maxElems with
  | none => base
  | some e => min base e

/-- Element count as the specification words it: `floor((size - offset) / width)`,
capped by `min` with the explicit maximum when given (`Nat` subtraction makes
`size - offset` zero when `offset > size`). -/
def specElementCount (shmSize offset width : Nat) (maxElems : Option Nat) : Nat :=
  match maxElems with
  | none => (shmSize - offset) / width
  | some e => min ((shmSize - offset) / width) e

/-- `random_interval_ms = interval_counter != 1 ? interval : 0` (part_000,
line 190): the effective interval is forced to 0 when the limit is exactly 1. -/
def effectiveIntervalMs (limitArg intervalArg : Nat) : Nat :=
  if limitArg ≠ 1 then intervalArg else 0

/-- `semaphore_max_time` (part_000, lines 286-287): seconds and nanoseconds
derived from half the effective interval. -/
def semaphore_max_time (ms : Nat) : Nat × Nat :=
  (ms / 2 / 1000, ms / 2 % 1000 * 1000000)

/-- `handle_sleep` (part_000, lines 313-322) blocks on the interval timer
exactly when `random_interval_ms` is nonzero. -/
def timer_wait (ms : Nat) : Bool := ms ≠ 0

/-- Main loop of the current variant (part_000, lines 304-357), fuel-indexed.

Each iteration checks `!terminate`, calls `random_data` (one fill tick, possibly
mutating the guard state), then `handle_sleep()` (no modelled state), then
`handle_counter()` (part_000, lines 306-311): when `limit ≠ 0`, increments
`counter` and breaks once it reaches `limit`.  `acq` is the oracle of bounded
semaphore-wait outcomes, indexed by tick number.  Returns `none` when the fuel
runs out before the loop exits, otherwise the number of fill ticks performed
and the final guard state. -/
def mainLoop (limit : Nat) (hasSem maxZero : Bool) (acq : Nat → Bool) :
    Nat → GuardState → Nat → Nat → Option (Nat × GuardState)
  | 0, _, _, _ => none
  | fuel + 1, s, counter, ticks =>
    if s.term then some (ticks, s)
    else
      let s' := (guardEnter hasSem maxZero (acq ticks) s).2
      if limit ≠ 0 then
        if counter + 1 ≥ limit then some (ticks + 1, s')
        else mainLoop limit hasSem maxZero acq fuel s' (counter + 1) (ticks + 1)
      else mainLoop limit hasSem maxZero acq fuel s' counter (ticks + 1)

/-- The guard state after `t` fill ticks of the main loop: `guardIter ... 0` is
the initial state (`sem_error_counter = 0`, `terminate` unset) and tick `t`
applies the semaphore-guard prologue with that tick's bounded-wait outcome
`acq t`. -/
def guardIter (hasSem maxZero : Bool) (acq : Nat → Bool) : Nat → GuardState
  | 0 => ⟨0, false⟩
  | t + 1 => (guardEnter hasSem maxZero (acq t) (guardIter hasSem maxZero acq t)).2

/-- Main loop of the historical variant (src/src/main.cpp, lines 239-281),
which has no semaphore and breaks on `++counter > interval_counter` (strict).
As in the current variant, the fill tick happens before the counter check. -/
def mainLoopOld (limit : Nat) : Nat → Nat → Nat → Bool → Option Nat
  | 0, _, _, _ => none
  | fuel + 1, counter, ticks, term =>
    if term then some ticks
    else
      if limit ≠ 0 then
        if counter + 1 > limit then some (ticks + 1)
        else mainLoopOld limit fuel (counter + 1) (ticks + 1) term
      else mainLoopOld limit fuel counter (ticks + 1) term

/-- The tail of `main` after resource acquisition (part_000, lines 248-357):
computes the element count, exits with `EX_DATAERR` when it is zero before any
fill, otherwise runs the main loop with the effective interval and the derived
semaphore timeout.  `some (.error c)` is an exit with code `c` before the loop,
`some (.ok (t, s))` a loop exit after `t` fill ticks, `none` fuel exhaustion. -/
def runMain (shmSize offset alignment : Nat) (maxElems : Option Nat)
    (limitArg intervalArg : Nat) (hasSem : Bool) (acq : Nat → Bool) (fuel : Nat) :
    Option (Except Nat (Nat × GuardState)) :=
  let elements := shm_elements shmSize offset alignment maxElems
  if elements = 0 then some (.error EX_DATAERR)
  else
    let ms := effectiveIntervalMs limitArg intervalArg
    let maxZero : Bool := decide (semaphore_max_time ms = (0, 0))
    match mainLoop limitArg hasSem maxZero acq fuel ⟨0, false⟩ 0 0 with
    | some r => some (.ok r)
    | none => none

/-- The guard state evolution over a run of the loop: `guardEnter` is applied
for each tick outcome in `events`, but — as in the `while (!terminate)` loop —
no further tick happens once `term` is set. -/
def guardRunLoop : List Bool → GuardState → GuardState
  | [], s => s
  | a :: rest, s =>
    if s.term then s else guardRunLoop rest (guardEnter true false a s).2

/-! ## Helper lemmas -/

theorem land_self_eq (a : Nat) : a &&& a = a :=
  Nat.eq_of_testBit_eq fun i => by simp [Nat.testBit_land]

theorem effectiveSize_eq (shmSize offset : Nat) :
    effectiveSize shmSize offset = shmSize - offset := by
  unfold effectiveSize
  split <;> omega

theorem guardEnter_noSem (mz a : Bool) (s : GuardState) :
    guardEnter false mz a s = (false, s) := rfl

theorem mainLoop_noSem_counts (limit : Nat) (mz : Bool) (acq : Nat → Bool)
    (hl : limit ≠ 0) :
    ∀ fuel counter ticks, counter < limit → limit - counter ≤ fuel →
      mainLoop limit false mz acq fuel ⟨0, false⟩ counter ticks
        = some (ticks + (limit - counter), ⟨0, false⟩) := by
  intro fuel
  induction fuel with
  | zero => intro counter ticks hc hf; omega
  | succ f ih =>
    intro counter ticks hc hf
    rw [mainLoop]
    simp only [guardEnter_noSem, hl, if_true, if_neg (Bool.false_ne_true)]
    by_cases hbreak : counter + 1 ≥ limit
    · have : limit - counter = 1 := by omega
      simp [hbreak, this, hl]
    · rw [if_neg hbreak, if_pos hl, ih (counter + 1) (ticks + 1) (by omega) (by omega)]
      have : ticks + 1 + (limit - (counter + 1)) = ticks + (limit - counter) := by omega
      rw [this]

theorem mainLoop_counts_general (limit : Nat) (hasSem maxZero : Bool) (acq : Nat → Bool)
    (hl : limit ≠ 0)
    (hterm : ∀ t, t < limit → (guardIter hasSem maxZero acq t).term = false) :
    ∀ fuel t, t < limit → limit - t ≤ fuel →
      mainLoop limit hasSem maxZero acq fuel (guardIter hasSem maxZero acq t) t t
        = some (limit, guardIter hasSem maxZero acq limit) := by
  intro fuel
  induction fuel with
  | zero => intro t ht hf; omega
  | succ f ih =>
    intro t ht hf
    have hstep : (guardEnter hasSem maxZero (acq t) (guardIter hasSem maxZero acq t)).2
        = guardIter hasSem maxZero acq (t + 1) := rfl
    rw [mainLoop, hterm t ht]
    simp only [if_neg (Bool.false_ne_true), hstep]
    rw [if_pos hl]
    by_cases hbreak : t + 1 ≥ limit
    · have hlim : t + 1 = limit := by omega
      rw [if_pos hbreak, hlim]
    · rw [if_neg hbreak]
      exact ih (t + 1) (by omega) (by omega)

theorem mainLoop_noLimit_noSem (mz : Bool) (acq : Nat → Bool) :
    ∀ fuel counter ticks, mainLoop 0 false mz acq fuel ⟨0, false⟩ counter ticks = none := by
  intro fuel
  induction fuel with
  | zero => intro counter ticks; rfl
  | succ f ih =>
    intro counter ticks
    rw [mainLoop]
    simp [guardEnter_noSem, ih]

theorem mainLoopOld_counts (limit : Nat) (hl : limit ≠ 0) :
    ∀ fuel counter ticks, counter ≤ limit → limit + 1 - counter ≤ fuel →
      mainLoopOld limit fuel counter ticks false
        = some (ticks + (limit + 1 - counter)) := by
  intro fuel
  induction fuel with
  | zero => intro counter ticks hc hf; omega
  | succ f ih =>
    intro counter ticks hc hf
    rw [mainLoopOld]
    simp only [hl, if_true, if_neg (Bool.false_ne_true)]
    by_cases hbreak : counter + 1 > limit
    · have : limit + 1 - counter = 1 := by omega
      simp [hbreak, this, hl]
    · rw [if_neg hbreak, if_pos hl, ih (counter + 1) (ticks + 1) (by omega) (by omega)]
      have : ticks + 1 + (limit + 1 - (counter + 1)) = ticks + (limit + 1 - counter) := by
        omega
      rw [this]

theorem guardEnter_success (s : GuardState) :
    guardEnter true false true s = (true, { s with err := s.err - 1 }) := rfl

theorem guardEnter_timeout (s : GuardState) :
    guardEnter true false false s
      = (false, ⟨s.err + 100, s.term || decide (1000 ≤ s.err + 100)⟩) := rfl

theorem guardStep_inv (a : Bool) (s : GuardState) (h1 : s.term = false)
    (h2 : s.err ≤ 999) :
    ((guardEnter true false a s).2.term = false → (guardEnter true false a s).2.err ≤ 999) ∧
    ((guardEnter true false a s).2.term = true →
      1000 ≤ (guardEnter true false a s).2.err ∧ (guardEnter true false a s).2.err ≤ 1099) := by
  cases a
  · rw [guardEnter_timeout]
    by_cases hc : 1000 ≤ s.err + 100
    · simp [h1, hc]
      omega
    · simp [h1, hc]
      omega
  · rw [guardEnter_success]
    simp [h1]
    omega

theorem guardRunLoop_inv (events : List Bool) :
    ∀ s : GuardState,
      (s.term = false → s.err ≤ 999) →
      (s.term = true → 1000 ≤ s.err ∧ s.err ≤ 1099) →
      (((guardRunLoop events s).term = false → (guardRunLoop events s).err ≤ 999) ∧
       ((guardRunLoop events s).term = true →
         1000 ≤ (guardRunLoop events s).err ∧ (guardRunLoop events s).err ≤ 1099)) := by
  induction events with
  | nil => intro s h1 h2; exact ⟨h1, h2⟩
  | cons a rest ih =>
    intro s h1 h2
    rw [guardRunLoop]
    by_cases ht : s.term = true
    · rw [if_pos ht]
      refine ⟨fun hf => ?_, fun _ => h2 ht⟩
      rw [ht] at hf
      cases hf
    · have hterm : s.term = false := by
        cases h : s.term
        · rfl
        · exact absurd h ht
      rw [if_neg ht]
      have step := guardStep_inv a s hterm (h1 hterm)
      exact ih _ step.1 step.2

/-! ## Claims -/

/-- C1: for every configured element width `w ∈ {1, 2, 4, 8}` and every 64-bit
mask `m`, every element value written by the fill operation, reinterpreted as a
`w`-byte unsigned integer, satisfies `value = value &&& (m truncated to w
bits)`. -/
theorem C1_fill_values_masked (w : Nat) (hw : w = 1 ∨ w = 2 ∨ w = 4 ∨ w = 8)
    (n m : Nat) (hm : m < 2 ^ 64) (rng : Nat → Nat)
    (hasSem maxZero acqRes : Bool) (s : GuardState) (v : Nat)
    (hv : v ∈ (random_data w n m rng hasSem maxZero acqRes s).values) :
    v = v &&& (m % 2 ^ (8 * w)) := by
  have hv' : v ∈ randomDataValues w n m rng := hv
  simp only [randomDataValues, List.mem_map, List.mem_range] at hv'
  obtain ⟨i, _, rfl⟩ := hv'
  rw [Nat.land_assoc, land_self_eq]

/-- Witness for C1 at `w = 1`, `m = 0x1`, a draw of 3: the written value is 1
and satisfies the mask equation. -/
theorem C1_fill_values_masked_witness :
    (1 : Nat) ∈ (random_data 1 1 1 (fun _ => 3) false false false ⟨0, false⟩).values ∧
    (1 : Nat) = 1 &&& (1 % 2 ^ (8 * 1)) :=
  ⟨by decide,
   C1_fill_values_masked 1 (Or.inl rfl) 1 1 (by decide) (fun _ => 3) false false false
     ⟨0, false⟩ 1 (by decide)⟩

/-- C2: the computed element count equals `floor((size - offset) / width)`,
capped by `min` with the explicit `--elements` maximum when given; and whenever
this count is 0 (including `offset > size`), the process exits with the
data-error exit code (`EX_DATAERR` = 65) before performing any fill. -/
theorem C2_element_count (shmSize offset alignment : Nat) (maxElems : Option Nat)
    (limitArg intervalArg : Nat) (hasSem : Bool) (acq : Nat → Bool) (fuel : Nat) :
    shm_elements shmSize offset alignment maxElems
      = specElementCount shmSize offset alignment maxElems ∧
    (shm_elements shmSize offset alignment maxElems = 0 →
      runMain shmSize offset alignment maxElems limitArg intervalArg hasSem acq fuel
        = some (.error EX_DATAERR)) := by
  constructor
  · cases maxElems <;> simp [shm_elements, specElementCount, effectiveSize_eq]
  · intro h
    simp [runMain, h]

/-- Witness for C2: size 2, offset 3 (offset beyond the region) gives 0
elements and the data-error exit. -/
theorem C2_element_count_witness :
    shm_elements 2 3 1 none = specElementCount 2 3 1 none ∧
    runMain 2 3 1 none 0 1000 false (fun _ => false) 5 = some (.error EX_DATAERR) :=
  ⟨(C2_element_count 2 3 1 none 0 1000 false (fun _ => false) 5).1,
   (C2_element_count 2 3 1 none 0 1000 false (fun _ => false) 5).2 (by decide)⟩

/-- C3 counterexample: the claim "for every configuration with limit N > 0,
interval > 0 and no termination signal, exactly N fill ticks occur" is false.
With limit 20, interval 1000 ms, a configured semaphore and every bounded wait
timing out, the error ceiling sets the terminate flag on the 10th tick and the
loop exits after 10 fill ticks, not 20 — with no signal delivered. -/
theorem C3_semaphore_counterexample :
    runMain 8 0 1 none 20 1000 true (fun _ => false) 100
      = some (.ok (10, ⟨1000, true⟩)) ∧
    (10 : Nat) ≠ 20 :=
  ⟨rfl, by decide⟩

/-- C3 amended: with limit `N > 0`, configured interval > 0, no termination
signal, and the semaphore guard not setting the terminate flag during the
first `N` ticks (which holds in particular with no semaphore configured, or
with a semaphore whose bounded wait succeeds on every tick), the main loop
performs exactly `N` fill ticks and the process exits cleanly (loop result,
not an error exit).  Without that proviso the error ceiling can stop the loop
early, as the counterexample shows. -/
theorem C3_limit_ticks_amended (N intervalArg shmSize fuel : Nat) (hasSem : Bool)
    (acq : Nat → Bool) (hN : 0 < N) (hi : 0 < intervalArg) (hs : 0 < shmSize)
    (hf : N ≤ fuel)
    (hterm : ∀ t, t < N →
      (guardIter hasSem
        (decide (semaphore_max_time (effectiveIntervalMs N intervalArg) = (0, 0)))
        acq t).term = false) :
    runMain shmSize 0 1 none N intervalArg hasSem acq fuel
      = some (.ok (N, guardIter hasSem
          (decide (semaphore_max_time (effectiveIntervalMs N intervalArg) = (0, 0)))
          acq N)) := by
  have he : ¬shm_elements shmSize 0 1 none = 0 := by
    simp [shm_elements, effectiveSize_eq]
    omega
  simp only [runMain]
  rw [if_neg he]
  rw [show (⟨0, false⟩ : GuardState)
      = guardIter hasSem
          (decide (semaphore_max_time (effectiveIntervalMs N intervalArg) = (0, 0)))
          acq 0 from rfl]
  rw [mainLoop_counts_general N hasSem _ acq (by omega) hterm fuel 0 hN (by omega)]

/-- Witness for C3 amended at limit 3, interval 5 ms, region of 4 bytes, with a
semaphore whose bounded wait succeeds on every tick. -/
theorem C3_limit_ticks_amended_witness :
    runMain 4 0 1 none 3 5 true (fun _ => true) 3 = some (.ok (3, ⟨0, false⟩)) :=
  C3_limit_ticks_amended 3 5 4 3 true (fun _ => true) (by decide) (by decide)
    (by decide) (by decide) (by decide)

/-- C4 counterexample: the claim "interval = 0 ⇒ exactly one fill tick
regardless of limit" is false.  With configured interval 0 and limit 2 the
effective interval is 0, yet the loop performs 2 fill ticks, not 1: the tick
count is governed solely by the limit (`handle_sleep` returns immediately but
does not stop the loop). -/
theorem C4_run_once_counterexample :
    effectiveIntervalMs 2 0 = 0 ∧
    runMain 8 0 1 none 2 0 false (fun _ => false) 5 = some (.ok (2, ⟨0, false⟩)) ∧
    (2 : Nat) ≠ 1 :=
  ⟨rfl, rfl, by decide⟩

/-- C4 amended: with effective interval 0 the tick count is still governed by
the limit alone — exactly `limit` ticks when `limit > 0` (hence exactly one
tick only in the `limit = 1` case), and an unbounded loop (fuel exhaustion for
every fuel) when `limit = 0`. -/
theorem C4_interval_zero_ticks (N intervalArg fuel : Nat) (acq : Nat → Bool)
    (h0 : effectiveIntervalMs N intervalArg = 0) (hf : N ≤ fuel) :
    (0 < N →
      runMain 8 0 1 none N intervalArg false acq fuel = some (.ok (N, ⟨0, false⟩))) ∧
    (N = 0 → runMain 8 0 1 none N intervalArg false acq fuel = none) := by
  constructor
  · intro hN
    simp only [runMain]
    rw [if_neg (by decide : ¬shm_elements 8 0 1 none = 0),
      mainLoop_noSem_counts N _ acq (by omega) fuel 0 0 hN (by omega)]
    simp
  · intro hN
    subst hN
    simp only [runMain]
    rw [if_neg (by decide : ¬shm_elements 8 0 1 none = 0), mainLoop_noLimit_noSem]

/-- Witness for C4 amended: limit 1 (which forces the effective interval to 0)
yields exactly one tick. -/
theorem C4_interval_zero_ticks_witness :
    runMain 8 0 1 none 1 7 false (fun _ => false) 1 = some (.ok (1, ⟨0, false⟩)) :=
  (C4_interval_zero_ticks 1 7 1 (fun _ => false) (by decide) (by decide)).1 (by decide)

/-- C5: with a semaphore configured and a bounded wait (half the interval), if
every acquisition attempt times out starting from a zero error counter, the
terminate flag is set after exactly 10 = `MAX_SEM_ERROR / SEM_ERROR_INC`
consecutive timeouts (not after 9), and the unbounded loop then stops on its
own after those 10 fill ticks. -/
theorem C5_ten_timeouts_terminate :
    MAX_SEM_ERROR / SEM_ERROR_INC = 10 ∧
    guardRunLoop (List.replicate 9 false) ⟨0, false⟩ = ⟨900, false⟩ ∧
    guardRunLoop (List.replicate 10 false) ⟨0, false⟩ = ⟨1000, true⟩ ∧
    mainLoop 0 true false (fun _ => false) 12 ⟨0, false⟩ 0 0 = some (10, ⟨1000, true⟩) :=
  ⟨rfl, rfl, rfl, rfl⟩

/-- C6 counterexample: the error counter does not stay in `[0, 1000]`.  After
9 timeouts (counter 900), one success (899), one timeout (999, below the
ceiling so no shutdown), a further timeout pushes the counter to 1099 > 1000;
the same trace is reachable in the full main loop. -/
theorem C6_counter_range_counterexample :
    guardRunLoop [false, false, false, false, false, false, false, false, false,
        true, false, false] ⟨0, false⟩ = ⟨1099, true⟩ ∧
    mainLoop 0 true false (fun t => decide (t = 9)) 13 ⟨0, false⟩ 0 0
      = some (12, ⟨1099, true⟩) ∧
    ¬(1099 ≤ MAX_SEM_ERROR) :=
  ⟨rfl, rfl, by decide⟩

/-- C6 amended: the error counter is a bounded accumulator in
`[0, MAX_SEM_ERROR + SEM_ERROR_INC - 1] = [0, 1099]` (not `[0, 1000]`):
incremented by 100 per timeout, decremented by 1 per success with a floor at 0,
and the forced-shutdown flag is set exactly when the counter first reaches a
value `≥ MAX_SEM_ERROR` (that value lies in `[1000, 1099]`). -/
theorem C6_counter_bounded (events : List Bool) :
    (guardRunLoop events ⟨0, false⟩).err ≤ MAX_SEM_ERROR + SEM_ERROR_INC - 1 ∧
    ((guardRunLoop events ⟨0, false⟩).term = true →
      MAX_SEM_ERROR ≤ (guardRunLoop events ⟨0, false⟩).err) := by
  have h := guardRunLoop_inv events ⟨0, false⟩ (fun _ => by decide) (fun hf => absurd hf (by decide))
  constructor
  · cases ht : (guardRunLoop events ⟨0, false⟩).term
    · have := h.1 ht
      simp [MAX_SEM_ERROR, SEM_ERROR_INC]
      omega
    · have := h.2 ht
      simp [MAX_SEM_ERROR, SEM_ERROR_INC]
      omega
  · intro ht
    have := h.2 ht
    simp [MAX_SEM_ERROR]
    omega

/-- Witness for C6 amended at the trace of 10 straight timeouts: the counter is
1000 (within `[0, 1099]`) and, the flag being set, is `≥ 1000`. -/
theorem C6_counter_bounded_witness :
    (guardRunLoop (List.replicate 10 false) ⟨0, false⟩).err
      ≤ MAX_SEM_ERROR + SEM_ERROR_INC - 1 ∧
    MAX_SEM_ERROR ≤ (guardRunLoop (List.replicate 10 false) ⟨0, false⟩).err :=
  ⟨(C6_counter_bounded (List.replicate 10 false)).1,
   (C6_counter_bounded (List.replicate 10 false)).2 rfl⟩

/-- C7: when a bounded semaphore wait times out, the fill body is still
executed for that tick (all `n` element values are produced) without holding
the semaphore, and the semaphore is posted after the body only if it was
actually acquired. -/
theorem C7_timeout_degrades (w n m : Nat) (rng : Nat → Nat) (s : GuardState)
    (hasSem maxZero acqRes : Bool) :
    (random_data w n m rng true false false s).values.length = n ∧
    (random_data w n m rng true false false s).values = randomDataValues w n m rng ∧
    (random_data w n m rng true false false s).acquired = false ∧
    (random_data w n m rng true false false s).posted = false ∧
    ((random_data w n m rng hasSem maxZero acqRes s).posted = true →
      (random_data w n m rng hasSem maxZero acqRes s).acquired = true) := by
  refine ⟨?_, rfl, rfl, rfl, ?_⟩
  · simp [random_data, randomDataValues]
  · intro h
    simp only [random_data] at h ⊢
    exact (Bool.and_eq_true_iff.mp h).2

/-- Witness for C7 at width 1, two elements, a state with a nonzero counter;
the release-implies-acquired part is discharged at the blocking-wait case
where the semaphore is posted. -/
theorem C7_timeout_degrades_witness :
    (random_data 1 2 5 (fun i => i) true false false ⟨3, false⟩).values.length = 2 ∧
    (random_data 1 2 5 (fun i => i) true false false ⟨3, false⟩).acquired = false ∧
    (random_data 1 2 5 (fun i => i) true false false ⟨3, false⟩).posted = false ∧
    (random_data 1 2 5 (fun i => i) true true true ⟨3, false⟩).acquired = true :=
  ⟨(C7_timeout_degrades 1 2 5 (fun i => i) ⟨3, false⟩ true true true).1,
   (C7_timeout_degrades 1 2 5 (fun i => i) ⟨3, false⟩ true true true).2.2.1,
   (C7_timeout_degrades 1 2 5 (fun i => i) ⟨3, false⟩ true true true).2.2.2.1,
   (C7_timeout_degrades 1 2 5 (fun i => i) ⟨3, false⟩ true true true).2.2.2.2 rfl⟩

/-- C8: with a semaphore configured and a zero maximum wait time (`{0, 0}`,
the run-once case), the tick performs the blocking acquire (acquired, guard
state untouched), the full fill body runs, and the semaphore is posted after
the body. -/
theorem C8_blocking_acquire (w n m : Nat) (rng : Nat → Nat) (s : GuardState)
    (acqRes : Bool) :
    (random_data w n m rng true true acqRes s).acquired = true ∧
    (random_data w n m rng true true acqRes s).posted = true ∧
    (random_data w n m rng true true acqRes s).state = s ∧
    (random_data w n m rng true true acqRes s).values.length = n :=
  ⟨rfl, rfl, rfl, by simp [random_data, randomDataValues]⟩

/-- C9 counterexample: the claim that the historical and current main loops
perform the same number of fill ticks is false.  With limit 1 and no signal,
the current loop (`++counter >= limit`) performs 1 tick while the historical
loop (`++counter > limit`) performs 2. -/
theorem C9_variants_counterexample :
    mainLoop 1 false false (fun _ => false) 5 ⟨0, false⟩ 0 0 = some (1, ⟨0, false⟩) ∧
    mainLoopOld 1 5 0 0 false = some 2 ∧
    (1 : Nat) ≠ 2 :=
  ⟨rfl, rfl, by decide⟩

/-- C9 amended: with limit `N > 0` and no signal, the current variant performs
exactly `N` fill ticks while the historical variant performs exactly `N + 1` —
one more, due to its strict counter comparison. -/
theorem C9_variants_off_by_one (N fuel : Nat) (mz : Bool) (acq : Nat → Bool)
    (hN : 0 < N) (hf : N + 1 ≤ fuel) :
    mainLoop N false mz acq fuel ⟨0, false⟩ 0 0 = some (N, ⟨0, false⟩) ∧
    mainLoopOld N fuel 0 0 false = some (N + 1) := by
  constructor
  · rw [mainLoop_noSem_counts N mz acq (by omega) fuel 0 0 hN (by omega)]
    simp
  · rw [mainLoopOld_counts N (by omega) fuel 0 0 (by omega) (by omega)]
    simp

/-- Witness for C9 amended at limit 2: current loop 2 ticks, historical 3. -/
theorem C9_variants_off_by_one_witness :
    mainLoop 2 false false (fun _ => false) 3 ⟨0, false⟩ 0 0 = some (2, ⟨0, false⟩) ∧
    mainLoopOld 2 3 0 0 false = some 3 :=
  C9_variants_off_by_one 2 3 false (fun _ => false) (by decide) (by decide)

/-- C10: with limit exactly 1, the effective interval is forced to 0 whatever
the configured `--interval` is; the single fill tick performs no timer wait,
the semaphore maximum wait time is `{0, 0}` so a configured semaphore is
acquired with the blocking wait (guard state untouched), and the loop performs
exactly one tick. -/
theorem C10_limit_one_run_once (intervalArg fuel : Nat) (acq : Nat → Bool)
    (hf : 1 ≤ fuel) :
    effectiveIntervalMs 1 intervalArg = 0 ∧
    semaphore_max_time (effectiveIntervalMs 1 intervalArg) = (0, 0) ∧
    timer_wait (effectiveIntervalMs 1 intervalArg) = false ∧
    guardEnter true (decide (semaphore_max_time (effectiveIntervalMs 1 intervalArg) = (0, 0)))
      (acq 0) ⟨0, false⟩ = (true, ⟨0, false⟩) ∧
    runMain 8 0 1 none 1 intervalArg true acq fuel = some (.ok (1, ⟨0, false⟩)) := by
  obtain ⟨f, rfl⟩ : ∃ f, fuel = f + 1 := ⟨fuel - 1, by omega⟩
  have h0 : effectiveIntervalMs 1 intervalArg = 0 := rfl
  have hmax : semaphore_max_time (effectiveIntervalMs 1 intervalArg) = (0, 0) := by
    rw [h0]
    decide
  refine ⟨h0, hmax, by rw [h0]; decide, ?_, ?_⟩
  · rw [hmax]
    rfl
  · simp only [runMain]
    rw [if_neg (by decide : ¬shm_elements 8 0 1 none = 0), hmax]
    rw [show (decide (((0 : Nat), (0 : Nat)) = (0, 0))) = true from by decide]
    rw [mainLoop]
    simp [guardEnter]

/-- Witness for C10 at configured interval 1000 ms and fuel 1. -/
theorem C10_limit_one_run_once_witness :
    effectiveIntervalMs 1 1000 = 0 ∧
    semaphore_max_time (effectiveIntervalMs 1 1000) = (0, 0) ∧
    timer_wait (effectiveIntervalMs 1 1000) = false ∧
    guardEnter true (decide (semaphore_max_time (effectiveIntervalMs 1 1000) = (0, 0)))
      ((fun _ => false) 0) ⟨0, false⟩ = (true, ⟨0, false⟩) ∧
    runMain 8 0 1 none 1 1000 true (fun _ => false) 1 = some (.ok (1, ⟨0, false⟩)) :=
  C10_limit_one_run_once 1000 1 (fun _ => false) (by decide)
